import Mathlib

/-!
Shallow embedding of the branch-name resolution, launcher selection and
workspace-setup logic of the lets CLI (files src/lets/cli.py,
src/lets/launchers/__init__.py, src/lets/launchers/base.py,
src/lets/launchers/tmux.py, src/lets/launchers/terminal.py), together
with theorems about that embedding.

External effects are modelled by explicit environment records: the exit
code and stdout of every spawned subprocess are given by a function from
the argument vector to a result record, interactive confirmations are
booleans supplied by the environment, and strftime timestamps are plain
string parameters. A Python function that can raise is embedded as a
function into Except, with error propagation written out as explicit
matches at exactly the places the Python code lacks a try/except.
-/

namespace Lets

/-- Result of one spawned subprocess: its exit code and captured stdout. -/
structure CmdResult where
  exitCode : Nat
  stdout : String
deriving DecidableEq, Repr

/-- Embedding of run_command from src/lets/launchers/base.py (the copy in
cli.py is identical).  subprocess.run raises CalledProcessError on a
non-zero exit exactly when check is true; with check false the stripped
stdout (possibly of a failed command) is returned when capture_output is
set.  The error value carries no data, matching the fact that the code
only ever branches on the exception type. -/
def run_command (run : List String → CmdResult) (cmd : List String)
    (capture_output : Bool) (check : Bool) : Except Unit (Option String) :=
  let result := run cmd
  if check ∧ result.exitCode ≠ 0 then Except.error ()
  else Except.ok (if capture_output then some result.stdout.trim else none)

/-- Environment of git probe calls: outcome of
git rev-parse --verify ref, as performed through run_command with
capture_output true and check true (ok carries the stripped stdout,
error stands for CalledProcessError). -/
structure GitEnv where
  revParseVerify : String → Except Unit String

/-- Embedding of branch_exists (src/lets/cli.py lines 228-245): the local
probe is tried first, a failing local probe falls back to the
origin-qualified probe, and a second failure yields false.  Probe errors
are consumed here and never escalate. -/
def branch_exists (git : GitEnv) (branch_name : String) : Bool :=
  match git.revParseVerify branch_name with
  | Except.ok _ => true
  | Except.error _ =>
    match git.revParseVerify ("origin/" ++ branch_name) with
    | Except.ok _ => true
    | Except.error _ => false

/-- Environment of one handle_branch_conflict call: the git probe
environment, the answer the user gives to the single possible
click.confirm prompt, and the two strftime timestamps taken at the two
datetime.now calls (HHMMSS first, then YYYYMMDD-HHMMSS). -/
structure ConflictEnv where
  git : GitEnv
  confirmUseExisting : Bool
  hhmmss : String
  fullTimestamp : String

/-- Result of handle_branch_conflict, instrumented with the number of
interactive click.confirm prompts issued during the call. -/
structure ConflictResult where
  name : String
  is_existing : Bool
  prompts : Nat
deriving DecidableEq, Repr

/-- Embedding of handle_branch_conflict (src/lets/cli.py lines 248-278).
The loop for i in range(1, 100) is rendered as a find? over the list
range' 1 99 = [1, ..., 99]; the final return is reached only when every
prior candidate exists and is never itself probed. -/
def handle_branch_conflict (env : ConflictEnv) (base_name : String) : ConflictResult :=
  if ¬ branch_exists env.git base_name then
    { name := base_name, is_existing := false, prompts := 0 }
  else if env.confirmUseExisting then
    { name := base_name, is_existing := true, prompts := 1 }
  else
    let candidate := base_name ++ "-" ++ env.hhmmss
    if ¬ branch_exists env.git candidate then
      { name := candidate, is_existing := false, prompts := 1 }
    else
      match (List.range' 1 99).find?
          (fun i => ¬ branch_exists env.git (base_name ++ "-" ++ toString i)) with
      | some i => { name := base_name ++ "-" ++ toString i, is_existing := false, prompts := 1 }
      | none => { name := base_name ++ "-" ++ env.fullTimestamp, is_existing := false, prompts := 1 }

/-- Candidate list that handle_branch_conflict probes, in probe order,
once the user has declined to reuse the existing branch: the HHMMSS
candidate first, then the numeric candidates 1 through 99. -/
def conflict_candidates (base_name hhmmss : String) : List String :=
  (base_name ++ "-" ++ hhmmss) ::
    (List.range' 1 99).map (fun i => base_name ++ "-" ++ toString i)

/-- Character class of the regex used in generate_branch_name: lowercase
ASCII letters, ASCII digits and the hyphen. -/
def isBranchChar (c : Char) : Bool :=
  (Char.ofNat 97 ≤ c ∧ c ≤ Char.ofNat 122) ∨
    (Char.ofNat 48 ≤ c ∧ c ≤ Char.ofNat 57) ∨ c = Char.ofNat 45

/-- Python str.strip with no argument, on a character list: whitespace
removed from both ends. -/
def pyStripChars (l : List Char) : List Char :=
  ((l.dropWhile Char.isWhitespace).reverse.dropWhile Char.isWhitespace).reverse

/-- Python str.split on the newline separator, on a character list:
segments between newlines, empty segments preserved, one segment more
than there are newlines. -/
def splitLinesChars : List Char → List (List Char)
  | [] => [[]]
  | c :: rest =>
    let r := splitLinesChars rest
    if c = Char.ofNat 10 then [] :: r
    else
      match r with
      | [] => [[c]]
      | h :: t => (c :: h) :: t

/-- Cleaning applied to the AI tool output in generate_branch_name
(src/lets/cli.py lines 166-170): strip, keep the last line, lowercase,
delete every character outside the branch character class, truncate to
50 characters. -/
def cleanAiOutput (s : String) : String :=
  let lastLine := (splitLinesChars (pyStripChars s.data)).getLastD []
  String.mk (((lastLine.map Char.toLower).filter isBranchChar).take 50)

/-- Digits of the first occurrence of a hash sign immediately followed by
at least one digit, as found by re.search of a hash sign followed by a
digit group: a hash sign not followed by a digit does not match and the
scan resumes after it. -/
def digitsAfterHash : List Char → Option (List Char)
  | [] => none
  | c :: rest =>
    if c = Char.ofNat 35 then
      let ds := rest.takeWhile Char.isDigit
      if ds.isEmpty then digitsAfterHash rest else some ds
    else digitsAfterHash rest

/-- Issue number extracted from the task text, if any. -/
def issueNumber (task : String) : Option String :=
  (digitsAfterHash task.data).map String.mk

/-- Minimum accepted length of an AI-generated branch name
(min_branch_length in src/lets/cli.py line 172). -/
def min_branch_length : Nat := 3

/-- Embedding of generate_branch_name (src/lets/cli.py lines 142-185).
The run_command call asking the AI tool is abstracted into aiOutput: none
models a call that produced no usable result object, some r a call that
returned stdout r (Python then tests r for truthiness, so the empty
string also falls through to the fallbacks).  nowTimestamp is the
YYYYMMDD-HHMMSS strftime value of the final fallback. -/
def generate_branch_name (aiOutput : Option String) (task : String)
    (nowTimestamp : String) : String :=
  let viaAi : Option String :=
    match aiOutput with
    | some result =>
      if result ≠ "" then
        let branch_name := cleanAiOutput result
        if min_branch_length ≤ branch_name.length then some branch_name else none
      else none
    | none => none
  match viaAi with
  | some branch_name => branch_name
  | none =>
    match issueNumber task with
    | some num => "issue-" ++ num
    | none => "task-" ++ nowTimestamp

/-- Truthiness of an optional Python string: present and non-empty. -/
def pyTruthy : Option String → Bool
  | some s => s ≠ ""
  | none => false

/-- Embedding of get_worktree_base_dir (src/lets/cli.py lines 188-197).
resolvePath abstracts Path(p).expanduser().resolve(); xdgDataHome is the
string of xdg_data_home(), and the final branch appends the fixed
lets/worktrees suffix to it. -/
def get_worktree_base_dir (resolvePath : String → String) (xdgDataHome : String)
    (envWorktreeDir : Option String) (custom_dir : Option String) : String :=
  if pyTruthy custom_dir then resolvePath (custom_dir.getD "")
  else if pyTruthy envWorktreeDir then resolvePath (envWorktreeDir.getD "")
  else xdgDataHome ++ "/lets/worktrees"

/-- The two registered launcher implementations
(src/lets/launchers/__init__.py lines 28-31). -/
inductive LauncherImpl
  | tmux
  | terminal
deriving DecidableEq, Repr

/-- Host environment observed by the availability probes: which command
names resolve on PATH (shutil.which) and the value of os.name. -/
structure HostEnv where
  which : String → Bool
  os_name : String

/-- Embedding of TmuxLauncher.is_available (src/lets/launchers/tmux.py
lines 16-18). -/
def tmux_is_available (h : HostEnv) : Bool :=
  h.which "tmux"

/-- Embedding of TerminalLauncher.is_available
(src/lets/launchers/terminal.py lines 16-26). -/
def terminal_is_available (h : HostEnv) : Bool :=
  if h.os_name = "posix" then
    h.which "open" || h.which "gnome-terminal" || h.which "xterm"
  else
    h.os_name = "nt"

/-- Availability dispatch over the two launcher implementations. -/
def launcher_is_available : LauncherImpl → HostEnv → Bool
  | LauncherImpl.tmux, h => tmux_is_available h
  | LauncherImpl.terminal, h => terminal_is_available h

/-- Keys of the launchers dict, in insertion order
(src/lets/launchers/__init__.py lines 28-31). -/
def registered_launchers : List String := ["tmux", "terminal"]

/-- The single-quote character, written by its code point. -/
def squote : Char := Char.ofNat 39

/-- Python repr of a string made of identifier characters. -/
def pyStrRepr (s : String) : String :=
  String.mk [squote] ++ s ++ String.mk [squote]

/-- Python str of a list of such strings, as interpolated into an
f-string. -/
def pyListRepr (l : List String) : String :=
  "[" ++ String.intercalate ", " (l.map pyStrRepr) ++ "]"

/-- Embedding of get_launcher (src/lets/launchers/__init__.py lines
26-38): a registered name yields its implementation, any other name
raises ValueError whose message embeds the Python repr of the list of
registered names. -/
def get_launcher (launcher_name : String) : Except String LauncherImpl :=
  if launcher_name = "tmux" then Except.ok LauncherImpl.tmux
  else if launcher_name = "terminal" then Except.ok LauncherImpl.terminal
  else Except.error ("Unknown launcher: " ++ launcher_name ++ ". Available: "
    ++ pyListRepr registered_launchers)

/-- Embedding of get_available_launchers (src/lets/launchers/__init__.py
lines 41-48): the registered names whose launcher reports available, in
registration order. -/
def get_available_launchers (h : HostEnv) : List String :=
  registered_launchers.filter (fun nm =>
    match get_launcher nm with
    | Except.ok l => launcher_is_available l h
    | Except.error _ => false)

/-- Embedding of get_best_available_launcher
(src/lets/launchers/__init__.py lines 51-68).  The preferred name is the
settings.launcher value; a ValueError from get_launcher is caught and
treated as absence of a usable preference, after which the fixed order
tmux then terminal is scanned and terminal is returned when the scan
finds nothing. -/
def get_best_available_launcher (h : HostEnv) (preferred : String) : String :=
  let fromDefault : Option String :=
    match get_launcher preferred with
    | Except.ok launcher =>
      if launcher_is_available launcher h then some preferred else none
    | Except.error _ => none
  match fromDefault with
  | some nm => nm
  | none =>
    match registered_launchers.find? (fun nm =>
        match get_launcher nm with
        | Except.ok l => launcher_is_available l h
        | Except.error _ => false) with
    | some nm => nm
    | none => "terminal"

/-- The backslash character, written by its code point. -/
def bslash : Char := Char.ofNat 92

/-- Quote escaping applied to the task text in both launchers: each
single quote becomes the four characters quote, backslash, quote, quote
(Python replace of a quote by quote-backslash-quote-quote). -/
def escape_single_quotes (task : String) : String :=
  String.mk (task.data.foldr
    (fun c acc => if c = squote then squote :: bslash :: squote :: squote :: acc else c :: acc)
    [])

/-- AI invocation string built by TmuxLauncher.setup_workspace
(src/lets/launchers/tmux.py lines 118-120). -/
def tmux_ai_cmd (ai_tool task : String) : String :=
  ai_tool ++ " --dangerously-skip-permissions " ++ String.mk [squote]
    ++ escape_single_quotes task ++ String.mk [squote]

/-- AI invocation string built by TerminalLauncher.setup_workspace
(src/lets/launchers/terminal.py lines 42-44). -/
def terminal_ai_cmd (ai_tool task : String) : String :=
  ai_tool ++ " --dangerously-skip-permissions " ++ String.mk [squote]
    ++ escape_single_quotes task ++ String.mk [squote]

/-- Python str.split with no argument: split on whitespace runs,
discarding empty tokens. -/
def pySplitWhitespace (s : String) : List String :=
  (s.split Char.isWhitespace).filter (fun t => t ≠ "")

/-- Argument vector of the has-session probe
(src/lets/launchers/tmux.py line 46). -/
def tmux_has_session_cmd (session : String) : List String :=
  ["tmux", "has-session", "-t", session]

/-- Argument vector of the session-creation step
(src/lets/launchers/tmux.py lines 54-66). -/
def tmux_new_session_cmd (session window path : String) : List String :=
  ["tmux", "new-session", "-d", "-s", session, "-n", window, "-c", path]

/-- Argument vector of the window-creation step
(src/lets/launchers/tmux.py lines 71-82). -/
def tmux_new_window_cmd (session window path : String) : List String :=
  ["tmux", "new-window", "-t", session ++ ":", "-n", window, "-c", path]

/-- Argument vector of the pane-splitting step
(src/lets/launchers/tmux.py lines 93-103). -/
def tmux_split_window_cmd (session window path : String) : List String :=
  ["tmux", "split-window", "-t", session ++ ":" ++ window, "-h", "-c", path]

/-- Argument vector of a send-keys step targeting one pane
(src/lets/launchers/tmux.py lines 107-116 and 121-130). -/
def tmux_send_keys_cmd (session window : String) (pane : Int) (keys : String) :
    List String :=
  ["tmux", "send-keys", "-t", session ++ ":" ++ window ++ "." ++ toString pane,
    keys, "Enter"]

/-- Argument vector of the final pane-selection step
(src/lets/launchers/tmux.py lines 133-135). -/
def tmux_select_pane_cmd (session window : String) (pane : Int) : List String :=
  ["tmux", "select-pane", "-t", session ++ ":" ++ window ++ "." ++ toString pane]

/-- Argument vector of the pane-base-index probe
(src/lets/launchers/tmux.py lines 23-25). -/
def tmux_show_option_cmd : List String :=
  ["tmux", "show-option", "-g", "pane-base-index"]

/-- Embedding of TmuxLauncher.get_pane_base_index
(src/lets/launchers/tmux.py lines 20-31): show-option output is parsed
as the int of its last whitespace token; a failing probe, an empty or
whitespace-only result and an unparsable token all fall back to 0. -/
def get_pane_base_index (run : List String → CmdResult) : Int :=
  match run_command run tmux_show_option_cmd true true with
  | Except.error _ => 0
  | Except.ok none => 0
  | Except.ok (some result) =>
    if result ≠ "" then
      match (pySplitWhitespace result.trim).getLast? with
      | none => 0
      | some tok =>
        match tok.toInt? with
        | some n => n
        | none => 0
    else 0

/-- Tmux-relevant slice of LetsSettings: the session name and the editor
command, the latter being the empty string when unset so that the Python
or-chain falls through to the EDITOR variable and then to vim. -/
structure TmuxSettings where
  session : String
  editor_command : String

/-- Environment of a TmuxLauncher.setup_workspace call: whether the tmux
binary resolves, the behavior of every spawned subprocess, and the
optional EDITOR environment variable. -/
structure TmuxEnv where
  tmuxInstalled : Bool
  run : List String → CmdResult
  editorVar : Option String

/-- Editor chosen for the left pane (src/lets/launchers/tmux.py line
106): the configured editor command when non-empty, else the EDITOR
environment variable, else vim. -/
def tmux_editor_choice (st : TmuxSettings) (editorVar : Option String) : String :=
  if st.editor_command ≠ "" then st.editor_command
  else editorVar.getD "vim"

/-- Embedding of TmuxLauncher.setup_workspace (src/lets/launchers/tmux.py
lines 33-137).  Only the has-session probe is wrapped in a try/except in
the source; every other run_command call uses the default check
argument, so a non-zero exit there raises CalledProcessError out of the
method, which the explicit error matches below propagate. -/
def tmux_setup_workspace (env : TmuxEnv) (st : TmuxSettings)
    (worktree_path branch_name task ai_tool : String) : Except Unit Bool :=
  if env.tmuxInstalled = false then Except.ok false
  else
    let session := st.session
    let window_name := branch_name
    let session_exists :=
      match run_command env.run (tmux_has_session_cmd session) true true with
      | Except.ok _ => true
      | Except.error _ => false
    let createStep :=
      if session_exists = false then
        run_command env.run (tmux_new_session_cmd session window_name worktree_path)
          false true
      else
        run_command env.run (tmux_new_window_cmd session window_name worktree_path)
          false true
    match createStep with
    | Except.error e => Except.error e
    | Except.ok _ =>
      let base_index := get_pane_base_index env.run
      let left_pane := base_index
      let right_pane := base_index + 1
      match run_command env.run (tmux_split_window_cmd session window_name worktree_path)
          false true with
      | Except.error e => Except.error e
      | Except.ok _ =>
        let editor := tmux_editor_choice st env.editorVar
        match run_command env.run
            (tmux_send_keys_cmd session window_name left_pane editor) false true with
        | Except.error e => Except.error e
        | Except.ok _ =>
          let ai_cmd := tmux_ai_cmd ai_tool task
          match run_command env.run
              (tmux_send_keys_cmd session window_name right_pane ai_cmd) false true with
          | Except.error e => Except.error e
          | Except.ok _ =>
            match run_command env.run
                (tmux_select_pane_cmd session window_name right_pane) false true with
            | Except.error e => Except.error e
            | Except.ok _ => Except.ok true

/-- Variant of run_command that also appends the spawned argument vector
to an execution trace, used to reason about which subprocesses a call
actually spawns. -/
def run_command_t (run : List String → CmdResult) (cmd : List String)
    (capture_output : Bool) (check : Bool) (tr : List (List String)) :
    Except Unit (Option String) × List (List String) :=
  (run_command run cmd capture_output check, tr ++ [cmd])

/-- Argument vector of the upstream push step of create_worktree. -/
def push_upstream_cmd (branch_name : String) : List String :=
  ["git", "push", "--set-upstream", "origin", branch_name]

/-- Argument vector of the local tracking fallback step of
create_worktree. -/
def fallback_tracking_cmd (branch_name : String) : List String :=
  ["git", "branch", "--set-upstream-to=origin/main", branch_name]

/-- Embedding of create_worktree (src/lets/cli.py lines 281-357),
returning the outcome together with the list of spawned argument
vectors.  The fetch uses check false and cannot raise; the worktree add
uses the default check true and its CalledProcessError is caught by the
outer handler, which returns false; the push also uses check false, so
the inner except handler guarding the tracking fallback only fires if
the push step raises. -/
def create_worktree (run : List String → CmdResult)
    (worktree_path branch_name base_branch : String)
    (is_existing_branch : Bool) : Except Unit Bool × List (List String) :=
  let (fetchRes, tr1) := run_command_t run ["git", "fetch", "origin"] true false []
  match fetchRes with
  | Except.error _ => (Except.ok false, tr1)
  | Except.ok _ =>
    let addCmd :=
      if is_existing_branch then
        ["git", "worktree", "add", worktree_path, branch_name]
      else
        ["git", "worktree", "add", "-b", branch_name, worktree_path, base_branch]
    let (addRes, tr2) := run_command_t run addCmd true true tr1
    match addRes with
    | Except.error _ => (Except.ok false, tr2)
    | Except.ok _ =>
      if is_existing_branch then (Except.ok true, tr2)
      else
        let (pushRes, tr3) :=
          run_command_t run (push_upstream_cmd branch_name) true false tr2
        match pushRes with
        | Except.ok _ => (Except.ok true, tr3)
        | Except.error _ =>
          let (fbRes, tr4) :=
            run_command_t run (fallback_tracking_cmd branch_name) true false tr3
          match fbRes with
          | Except.ok _ => (Except.ok true, tr4)
          | Except.error _ => (Except.ok false, tr4)

/-- Concrete git environment in which exactly the refs feature and
feature-153000 resolve. -/
def feature_git : GitEnv :=
  { revParseVerify := fun r =>
      if r = "feature" ∨ r = "feature-153000" then Except.ok "" else Except.error () }

/-- Concrete conflict environment for the scenario in which feature
exists, the user declines reuse and the HHMMSS candidate also exists. -/
def feature_env : ConflictEnv :=
  { git := feature_git, confirmUseExisting := false,
    hhmmss := "153000", fullTimestamp := "20250101-153000" }

/-- Concrete git environment in which every probe raises. -/
def absent_git : GitEnv :=
  { revParseVerify := fun _ => Except.error () }

/-- Concrete conflict environment built on absent_git. -/
def absent_env : ConflictEnv :=
  { git := absent_git, confirmUseExisting := false,
    hhmmss := "000000", fullTimestamp := "20250101-000000" }

/-- Host on which no binary resolves and os.name is neither posix nor
nt. -/
def no_launcher_host : HostEnv :=
  { which := fun _ => false, os_name := "java" }

/-- A 50-character branch name consisting solely of the letter a, the
longest name the AI-output cleaning can produce. -/
def fifty_a : String := String.mk (List.replicate 50 (Char.ofNat 97))

/-- Git environment in which exactly the ref fifty_a resolves. -/
def long_branch_git : GitEnv :=
  { revParseVerify := fun r => if r = fifty_a then Except.ok "" else Except.error () }

/-- Conflict environment in which fifty_a exists and the user declines
reuse, so the HHMMSS candidate is taken. -/
def long_branch_env : ConflictEnv :=
  { git := long_branch_git, confirmUseExisting := false,
    hhmmss := "153000", fullTimestamp := "20250101-153000" }

/-- Subprocess behavior in which only the upstream push for
feature-branch exits non-zero. -/
def push_fails_run : List String → CmdResult :=
  fun cmd =>
    if cmd = push_upstream_cmd "feature-branch" then { exitCode := 1, stdout := "" }
    else { exitCode := 0, stdout := "" }

/-- Tmux settings with the default dev session and no configured
editor. -/
def default_tmux_settings : TmuxSettings :=
  { session := "dev", editor_command := "" }

/-- Tmux environment in which the binary is installed and every
subprocess succeeds with empty output. -/
def all_ok_tmux_env : TmuxEnv :=
  { tmuxInstalled := true, run := fun _ => { exitCode := 0, stdout := "" },
    editorVar := none }

/-- Tmux environment in which the binary is installed and every
subprocess exits 1. -/
def all_fail_tmux_env : TmuxEnv :=
  { tmuxInstalled := true, run := fun _ => { exitCode := 1, stdout := "" },
    editorVar := none }

/-- Tmux environment in which only the pane-base-index probe fails. -/
def show_option_fails_env : TmuxEnv :=
  { tmuxInstalled := true,
    run := fun cmd =>
      if cmd = tmux_show_option_cmd then { exitCode := 1, stdout := "" }
      else { exitCode := 0, stdout := "" },
    editorVar := none }

/-- Tmux environment in which only the has-session probe fails, so the
session-absent path is taken and everything else succeeds. -/
def session_absent_env : TmuxEnv :=
  { tmuxInstalled := true,
    run := fun cmd =>
      if cmd = tmux_has_session_cmd "dev" then { exitCode := 1, stdout := "" }
      else { exitCode := 0, stdout := "" },
    editorVar := none }

/-- The task string of the quoting scenario: Fix, a quoted auth, issue. -/
def fix_auth_task : String :=
  "Fix " ++ String.mk [squote] ++ "auth" ++ String.mk [squote] ++ " issue"

/-- The AI invocation string the quoting scenario must produce. -/
def fix_auth_expected : String :=
  "claude --dangerously-skip-permissions " ++ String.mk [squote] ++ "Fix "
    ++ String.mk [squote, bslash, squote, squote] ++ "auth"
    ++ String.mk [squote, bslash, squote, squote] ++ " issue" ++ String.mk [squote]

/-- Helper: find? is the head of the filtered list. -/
theorem find?_eq_head?_filter {α : Type} (p : α → Bool) (l : List α) :
    l.find? p = (l.filter p).head? := by
  induction l with
  | nil => rfl
  | cons x xs ih =>
    cases hx : p x with
    | false =>
      rw [List.find?_cons_of_neg _ (by simp [hx]), List.filter_cons_of_neg (by simp [hx])]
      exact ih
    | true =>
      rw [List.find?_cons_of_pos _ hx, List.filter_cons_of_pos hx]
      rfl

/-- C1: once the desired name exists and the user declines reuse,
handle_branch_conflict returns the first candidate of the ordered list
conflict_candidates (the HHMMSS candidate, then the numeric candidates 1
through 99) whose existence probe reports absence, with is_existing
false, and when every candidate exists it returns the YYYYMMDD-HHMMSS
fallback without probing it (the equation holds whatever the probe would
say about the fallback name). -/
theorem handle_branch_conflict_candidate_order (env : ConflictEnv) (base_name : String)
    (hex : branch_exists env.git base_name = true)
    (hdecl : env.confirmUseExisting = false) :
    handle_branch_conflict env base_name =
      { name := ((conflict_candidates base_name env.hhmmss).find?
            (fun c => ¬ branch_exists env.git c)).getD
            (base_name ++ "-" ++ env.fullTimestamp),
        is_existing := false, prompts := 1 } := by
  unfold handle_branch_conflict conflict_candidates
  rw [hex, hdecl]
  simp only [not_true, if_false, Bool.false_eq_true, ite_false]
  by_cases hc : branch_exists env.git (base_name ++ "-" ++ env.hhmmss) = true
  · rw [if_neg (fun h => h hc), List.find?_cons_of_neg _ (by rw [hc]; decide)]
    rw [List.find?_map]
    simp only [Function.comp_def]
    cases hf : (List.range' 1 99).find?
        (fun i => decide ¬(branch_exists env.git (base_name ++ "-" ++ toString i) = true)) with
    | none => simp
    | some i => simp
  · have hc2 : branch_exists env.git (base_name ++ "-" ++ env.hhmmss) = false := by
      revert hc
      cases branch_exists env.git (base_name ++ "-" ++ env.hhmmss) <;> decide
    rw [if_pos (fun h => Bool.false_ne_true (hc2 ▸ h)),
      List.find?_cons_of_pos _ (by rw [hc2]; decide)]
    simp

/-- C4: when both the local and the origin-qualified probe raise, the
existence check consumes the errors and reports false, and
handle_branch_conflict returns the desired name unchanged with
is_existing false and zero prompts issued. -/
theorem handle_branch_conflict_no_conflict (env : ConflictEnv) (base_name : String)
    (hlocal : env.git.revParseVerify base_name = Except.error ())
    (hremote : env.git.revParseVerify ("origin/" ++ base_name) = Except.error ()) :
    branch_exists env.git base_name = false ∧
    handle_branch_conflict env base_name =
      { name := base_name, is_existing := false, prompts := 0 } := by
  have hbe : branch_exists env.git base_name = false := by
    unfold branch_exists
    rw [hlocal, hremote]
  refine ⟨hbe, ?_⟩
  unfold handle_branch_conflict
  rw [hbe]
  simp

/-- Witness for C1: the scenario with feature existing, reuse declined
and feature-153000 also existing resolves to feature-1. -/
theorem handle_branch_conflict_candidate_order_witness :
    branch_exists feature_env.git "feature" = true ∧
    handle_branch_conflict feature_env "feature" =
      { name := "feature-1", is_existing := false, prompts := 1 } := by
  have h := handle_branch_conflict_candidate_order feature_env "feature"
    (by decide) (by decide)
  refine ⟨by decide, ?_⟩
  rw [h]
  decide

/-- Witness for C4: fix-bug does not exist anywhere and is returned
as-is with zero prompts. -/
theorem handle_branch_conflict_no_conflict_witness :
    branch_exists absent_env.git "fix-bug" = false ∧
    handle_branch_conflict absent_env "fix-bug" =
      { name := "fix-bug", is_existing := false, prompts := 0 } :=
  handle_branch_conflict_no_conflict absent_env "fix-bug" rfl rfl

/-- C5: get_best_available_launcher is a total function that returns the
preferred identifier when it is registered and its launcher reports
available, otherwise the first available identifier in the fixed order
tmux then terminal, and the identifier terminal when no launcher
reports available at all. -/
theorem get_best_available_launcher_total (h : HostEnv) (preferred : String) :
    (∀ l, get_launcher preferred = Except.ok l → launcher_is_available l h = true →
      get_best_available_launcher h preferred = preferred) ∧
    ((∀ l, get_launcher preferred = Except.ok l → launcher_is_available l h = false) →
      get_best_available_launcher h preferred = (get_available_launchers h).headD "terminal") ∧
    (get_available_launchers h = [] → get_best_available_launcher h preferred = "terminal") := by
  have hscan : (match registered_launchers.find? (fun nm =>
        match get_launcher nm with
        | Except.ok l => launcher_is_available l h
        | Except.error _ => false) with
      | some nm => nm
      | none => "terminal") = (get_available_launchers h).headD "terminal" := by
    unfold get_available_launchers
    rw [find?_eq_head?_filter, List.headD_eq_head?_getD]
    cases (registered_launchers.filter (fun nm =>
        match get_launcher nm with
        | Except.ok l => launcher_is_available l h
        | Except.error _ => false)).head? with
    | none => rfl
    | some nm => rfl
  have key : (∀ l, get_launcher preferred = Except.ok l → launcher_is_available l h = false) →
      get_best_available_launcher h preferred = (get_available_launchers h).headD "terminal" := by
    intro hna
    unfold get_best_available_launcher
    cases hgl : get_launcher preferred with
    | error e => exact hscan
    | ok l =>
      have hw := hna l hgl
      simp only [hw]
      simpa using hscan
  refine ⟨?_, key, ?_⟩
  · intro l hok havail
    unfold get_best_available_launcher
    rw [hok]
    simp [havail]
  · intro hempty
    have hna : ∀ l, get_launcher preferred = Except.ok l → launcher_is_available l h = false := by
      intro l hok
      have hall := List.filter_eq_nil_iff.mp (by
        unfold get_available_launchers at hempty
        exact hempty)
      unfold get_launcher at hok
      by_cases hp1 : preferred = "tmux"
      · rw [hp1] at hok
        simp at hok
        rw [← hok]
        have := hall "tmux" (by decide)
        simpa using this
      · by_cases hp2 : preferred = "terminal"
        · rw [hp2] at hok
          simp [hp1] at hok
          rw [← hok]
          have := hall "terminal" (by decide)
          simpa using this
        · rw [if_neg hp1, if_neg hp2] at hok
          cases hok
    rw [key hna, hempty]
    rfl

/-- Witness for C5: on a host without any launcher binary the available
set is empty and selection still returns terminal, even for an
unregistered preference. -/
theorem get_best_available_launcher_total_witness :
    get_available_launchers no_launcher_host = [] ∧
    get_best_available_launcher no_launcher_host "kitty" = "terminal" :=
  ⟨by decide, (get_best_available_launcher_total no_launcher_host "kitty").2.2 (by decide)⟩

/-- C8: get_launcher rejects every unregistered identifier with a
ValueError whose message carries the Python repr of the registered
identifier list, and maps each registered identifier to its
implementation. -/
theorem get_launcher_unknown_error (nm : String)
    (h1 : nm ≠ "tmux") (h2 : nm ≠ "terminal") :
    get_launcher nm = Except.error ("Unknown launcher: " ++ nm ++ ". Available: "
      ++ pyListRepr registered_launchers) ∧
    get_launcher "tmux" = Except.ok LauncherImpl.tmux ∧
    get_launcher "terminal" = Except.ok LauncherImpl.terminal := by
  refine ⟨?_, rfl, rfl⟩
  unfold get_launcher
  rw [if_neg h1, if_neg h2]

/-- Witness for C8: the identifier kitty is rejected with the message
listing the registered identifiers. -/
theorem get_launcher_unknown_error_witness :
    get_launcher "kitty" = Except.error ("Unknown launcher: " ++ "kitty" ++ ". Available: "
      ++ pyListRepr registered_launchers) ∧
    get_launcher "tmux" = Except.ok LauncherImpl.tmux ∧
    get_launcher "terminal" = Except.ok LauncherImpl.terminal :=
  get_launcher_unknown_error "kitty" (by decide) (by decide)

/-- C9: worktree base directory resolution has strict three-level
precedence: a non-empty explicit custom directory always wins, then a
non-empty LETS_WORKTREE_DIR environment value, then the xdg data home
with the fixed lets/worktrees suffix. -/
theorem get_worktree_base_dir_precedence (resolvePath : String → String) (xdg : String)
    (envDir customDir : Option String) :
    (∀ d, customDir = some d → d ≠ "" →
      get_worktree_base_dir resolvePath xdg envDir customDir = resolvePath d) ∧
    (pyTruthy customDir = false → ∀ e, envDir = some e → e ≠ "" →
      get_worktree_base_dir resolvePath xdg envDir customDir = resolvePath e) ∧
    (pyTruthy customDir = false → pyTruthy envDir = false →
      get_worktree_base_dir resolvePath xdg envDir customDir = xdg ++ "/lets/worktrees") := by
  refine ⟨?_, ?_, ?_⟩
  · intro d hd hne
    subst hd
    unfold get_worktree_base_dir
    simp [pyTruthy, hne]
  · intro hc e he hne
    subst he
    unfold get_worktree_base_dir
    rw [hc]
    simp [pyTruthy, hne]
  · intro hc he
    unfold get_worktree_base_dir
    rw [hc, he]
    simp

/-- Witness for C9: an explicit custom directory wins over a set
environment directory. -/
theorem get_worktree_base_dir_precedence_witness :
    get_worktree_base_dir id "/xdg" (some "/env") (some "/custom") = "/custom" :=
  (get_worktree_base_dir_precedence id "/xdg" (some "/env") (some "/custom")).1
    "/custom" rfl (by decide)

/-- Helper: a string with a non-empty left part stays non-empty under
append. -/
theorem append_ne_empty_left (s t : String) (h : s.length ≠ 0) : s ++ t ≠ "" := by
  intro he
  have hlen := congrArg String.length he
  rw [String.length_append] at hlen
  have h0 : ("" : String).length = 0 := rfl
  rw [h0] at hlen
  omega

/-- C6: both launchers build the identical AI invocation string: the
tool name, the dangerously-skip-permissions flag, and the task wrapped
in single quotes after replacing every single quote by the
quote-backslash-quote-quote sequence; the quoted-task scenario produces
exactly the expected literal. -/
theorem ai_cmd_construction (ai_tool task : String) :
    tmux_ai_cmd ai_tool task = terminal_ai_cmd ai_tool task ∧
    tmux_ai_cmd ai_tool task = ai_tool ++ " --dangerously-skip-permissions "
      ++ String.mk [squote] ++ escape_single_quotes task ++ String.mk [squote] ∧
    (escape_single_quotes task).data = (task.data.map
      (fun c => if c = squote then [squote, bslash, squote, squote] else [c])).flatten ∧
    tmux_ai_cmd "claude" fix_auth_task = fix_auth_expected := by
  refine ⟨rfl, rfl, ?_, by decide⟩
  have h : ∀ l : List Char,
      l.foldr (fun c acc =>
        if c = squote then squote :: bslash :: squote :: squote :: acc else c :: acc) []
      = (l.map (fun c => if c = squote then [squote, bslash, squote, squote] else [c])).flatten := by
    intro l
    induction l with
    | nil => rfl
    | cons c cs ih =>
      by_cases hcq : c = squote
      · simp [hcq, ih]
      · simp [hcq, ih]
  exact h task.data

/-- Helper: the AI-cleaning path of generate_branch_name returns the
cleaned output whenever it reaches the length threshold. -/
theorem gbn_eq_ai (r : String) (hr : r ≠ "")
    (hlen : min_branch_length ≤ (cleanAiOutput r).length) (task ts : String) :
    generate_branch_name (some r) task ts = cleanAiOutput r := by
  unfold generate_branch_name
  simp [hr, hlen]

/-- Helper: when no usable AI output exists, generate_branch_name takes
the issue-number fallback, then the timestamp fallback. -/
theorem gbn_eq_fallback (ai : Option String)
    (hno : ∀ r, ai = some r → (cleanAiOutput r).length < min_branch_length)
    (task ts : String) :
    generate_branch_name ai task ts =
      (match issueNumber task with
       | some num => "issue-" ++ num
       | none => "task-" ++ ts) := by
  unfold generate_branch_name
  cases ai with
  | none => rfl
  | some r =>
    have hlt := hno r rfl
    have hnle : ¬ (min_branch_length ≤ (cleanAiOutput r).length) := by omega
    by_cases hr : r = ""
    · simp [hr]
    · simp [hr, hnle]

/-- C10: generate_branch_name never returns the empty string; a cleaned
AI output of at least three characters is returned as-is; otherwise the
first hash-digits group of the task yields the issue-prefixed name, and
failing that the timestamp-prefixed name is returned. -/
theorem generate_branch_name_fallbacks (ai : Option String) (task ts : String) :
    generate_branch_name ai task ts ≠ "" ∧
    (∀ r, ai = some r → min_branch_length ≤ (cleanAiOutput r).length →
      generate_branch_name ai task ts = cleanAiOutput r) ∧
    ((∀ r, ai = some r → (cleanAiOutput r).length < min_branch_length) →
      (∀ num, issueNumber task = some num →
        generate_branch_name ai task ts = "issue-" ++ num) ∧
      (issueNumber task = none → generate_branch_name ai task ts = "task-" ++ ts)) := by
  refine ⟨?_, ?_, ?_⟩
  · by_cases hai : ∃ r, ai = some r ∧ min_branch_length ≤ (cleanAiOutput r).length
    · obtain ⟨r, hr, hlen⟩ := hai
      subst hr
      have hrne : r ≠ "" := by
        intro he
        subst he
        exact absurd hlen (by decide)
      rw [gbn_eq_ai r hrne hlen]
      intro he
      rw [he] at hlen
      exact absurd hlen (by decide)
    · have hno : ∀ r, ai = some r → (cleanAiOutput r).length < min_branch_length := by
        intro r hr
        by_contra hle
        exact hai ⟨r, hr, by omega⟩
      rw [gbn_eq_fallback ai hno]
      cases hin : issueNumber task with
      | some num => exact append_ne_empty_left "issue-" num (by decide)
      | none => exact append_ne_empty_left "task-" ts (by decide)
  · intro r hr hlen
    subst hr
    have hrne : r ≠ "" := by
      intro he
      subst he
      exact absurd hlen (by decide)
    exact gbn_eq_ai r hrne hlen task ts
  · intro hno
    constructor
    · intro num hin
      rw [gbn_eq_fallback ai hno, hin]
    · intro hin
      rw [gbn_eq_fallback ai hno, hin]

/-- Witness for C10: a clean thirteen-character AI output is returned
unchanged and non-empty. -/
theorem generate_branch_name_fallbacks_witness :
    generate_branch_name (some "fix-login-bug") "t" "x" = cleanAiOutput "fix-login-bug" ∧
    generate_branch_name (some "fix-login-bug") "t" "x" ≠ "" :=
  ⟨(generate_branch_name_fallbacks (some "fix-login-bug") "t" "x").2.1
      "fix-login-bug" rfl (by decide),
   (generate_branch_name_fallbacks (some "fix-login-bug") "t" "x").1⟩

/-- Counterexample for C2: with tmux installed and every subprocess
exiting 1, setup_workspace propagates CalledProcessError (the error
outcome) instead of returning false, refuting the claim that a failing
required setup subprocess yields a false return. -/
theorem tmux_setup_workspace_raises_counterexample :
    tmux_setup_workspace all_fail_tmux_env default_tmux_settings "/w" "branch" "task" "claude"
      = Except.error () ∧
    (Except.error () : Except Unit Bool) ≠ Except.ok false := by
  constructor
  · rfl
  · intro h
    exact Except.noConfusion h

/-- C2 amended: setup_workspace returns false when the tmux binary is
unavailable; it returns true when every required step succeeds, whatever
the two tolerated probes (has-session and show-option) report; and a
non-zero exit of any required setup subprocess, each one reached by
making all earlier required steps succeed — session creation, window
creation, pane splitting, each of the two send-keys steps, and the final
pane selection — raises CalledProcessError out of the method instead of
returning false. -/
theorem tmux_setup_workspace_outcomes (env : TmuxEnv) (st : TmuxSettings)
    (worktree_path branch_name task ai_tool : String) :
    (env.tmuxInstalled = false →
      tmux_setup_workspace env st worktree_path branch_name task ai_tool = Except.ok false) ∧
    (env.tmuxInstalled = true →
      (∀ cmd, cmd ≠ tmux_show_option_cmd → (env.run cmd).exitCode = 0) →
      tmux_setup_workspace env st worktree_path branch_name task ai_tool = Except.ok true) ∧
    (env.tmuxInstalled = true →
      (env.run (tmux_has_session_cmd st.session)).exitCode ≠ 0 →
      (∀ cmd, cmd ≠ tmux_show_option_cmd → cmd ≠ tmux_has_session_cmd st.session →
        (env.run cmd).exitCode = 0) →
      tmux_setup_workspace env st worktree_path branch_name task ai_tool = Except.ok true) ∧
    (env.tmuxInstalled = true →
      (env.run (tmux_has_session_cmd st.session)).exitCode ≠ 0 →
      (env.run (tmux_new_session_cmd st.session branch_name worktree_path)).exitCode ≠ 0 →
      tmux_setup_workspace env st worktree_path branch_name task ai_tool = Except.error ()) ∧
    (env.tmuxInstalled = true →
      (env.run (tmux_has_session_cmd st.session)).exitCode = 0 →
      (env.run (tmux_new_window_cmd st.session branch_name worktree_path)).exitCode ≠ 0 →
      tmux_setup_workspace env st worktree_path branch_name task ai_tool = Except.error ()) ∧
    (env.tmuxInstalled = true →
      (env.run (tmux_has_session_cmd st.session)).exitCode = 0 →
      (env.run (tmux_new_window_cmd st.session branch_name worktree_path)).exitCode = 0 →
      (env.run (tmux_split_window_cmd st.session branch_name worktree_path)).exitCode ≠ 0 →
      tmux_setup_workspace env st worktree_path branch_name task ai_tool = Except.error ()) ∧
    (env.tmuxInstalled = true →
      (env.run (tmux_has_session_cmd st.session)).exitCode = 0 →
      (env.run (tmux_new_window_cmd st.session branch_name worktree_path)).exitCode = 0 →
      (env.run (tmux_split_window_cmd st.session branch_name worktree_path)).exitCode = 0 →
      (env.run (tmux_send_keys_cmd st.session branch_name (get_pane_base_index env.run)
        (tmux_editor_choice st env.editorVar))).exitCode ≠ 0 →
      tmux_setup_workspace env st worktree_path branch_name task ai_tool = Except.error ()) ∧
    (env.tmuxInstalled = true →
      (env.run (tmux_has_session_cmd st.session)).exitCode = 0 →
      (env.run (tmux_new_window_cmd st.session branch_name worktree_path)).exitCode = 0 →
      (env.run (tmux_split_window_cmd st.session branch_name worktree_path)).exitCode = 0 →
      (env.run (tmux_send_keys_cmd st.session branch_name (get_pane_base_index env.run)
        (tmux_editor_choice st env.editorVar))).exitCode = 0 →
      (env.run (tmux_send_keys_cmd st.session branch_name (get_pane_base_index env.run + 1)
        (tmux_ai_cmd ai_tool task))).exitCode ≠ 0 →
      tmux_setup_workspace env st worktree_path branch_name task ai_tool = Except.error ()) ∧
    (env.tmuxInstalled = true →
      (env.run (tmux_has_session_cmd st.session)).exitCode = 0 →
      (env.run (tmux_new_window_cmd st.session branch_name worktree_path)).exitCode = 0 →
      (env.run (tmux_split_window_cmd st.session branch_name worktree_path)).exitCode = 0 →
      (env.run (tmux_send_keys_cmd st.session branch_name (get_pane_base_index env.run)
        (tmux_editor_choice st env.editorVar))).exitCode = 0 →
      (env.run (tmux_send_keys_cmd st.session branch_name (get_pane_base_index env.run + 1)
        (tmux_ai_cmd ai_tool task))).exitCode = 0 →
      (env.run (tmux_select_pane_cmd st.session branch_name
        (get_pane_base_index env.run + 1))).exitCode ≠ 0 →
      tmux_setup_workspace env st worktree_path branch_name task ai_tool = Except.error ()) := by
  refine ⟨?_, ?_, ?_, ?_, ?_, ?_, ?_, ?_, ?_⟩
  · intro hinst
    unfold tmux_setup_workspace
    rw [hinst]
    simp
  · intro hinst hall
    have hhs := hall (tmux_has_session_cmd st.session)
      (by simp [tmux_has_session_cmd, tmux_show_option_cmd])
    have hnw := hall (tmux_new_window_cmd st.session branch_name worktree_path)
      (by simp [tmux_new_window_cmd, tmux_show_option_cmd])
    have hsw := hall (tmux_split_window_cmd st.session branch_name worktree_path)
      (by simp [tmux_split_window_cmd, tmux_show_option_cmd])
    have hsk1 := hall (tmux_send_keys_cmd st.session branch_name (get_pane_base_index env.run)
      (tmux_editor_choice st env.editorVar))
      (by simp [tmux_send_keys_cmd, tmux_show_option_cmd])
    have hsk2 := hall (tmux_send_keys_cmd st.session branch_name (get_pane_base_index env.run + 1)
      (tmux_ai_cmd ai_tool task))
      (by simp [tmux_send_keys_cmd, tmux_show_option_cmd])
    have hsp := hall (tmux_select_pane_cmd st.session branch_name
      (get_pane_base_index env.run + 1))
      (by simp [tmux_select_pane_cmd, tmux_show_option_cmd])
    unfold tmux_setup_workspace
    rw [hinst]
    simp [run_command, hhs, hnw, hsw, hsk1, hsk2, hsp]
  · intro hinst hhsf hall
    have hns := hall (tmux_new_session_cmd st.session branch_name worktree_path)
      (by simp [tmux_new_session_cmd, tmux_show_option_cmd])
      (by simp [tmux_new_session_cmd, tmux_has_session_cmd])
    have hsw := hall (tmux_split_window_cmd st.session branch_name worktree_path)
      (by simp [tmux_split_window_cmd, tmux_show_option_cmd])
      (by simp [tmux_split_window_cmd, tmux_has_session_cmd])
    have hsk1 := hall (tmux_send_keys_cmd st.session branch_name (get_pane_base_index env.run)
      (tmux_editor_choice st env.editorVar))
      (by simp [tmux_send_keys_cmd, tmux_show_option_cmd])
      (by simp [tmux_send_keys_cmd, tmux_has_session_cmd])
    have hsk2 := hall (tmux_send_keys_cmd st.session branch_name (get_pane_base_index env.run + 1)
      (tmux_ai_cmd ai_tool task))
      (by simp [tmux_send_keys_cmd, tmux_show_option_cmd])
      (by simp [tmux_send_keys_cmd, tmux_has_session_cmd])
    have hsp := hall (tmux_select_pane_cmd st.session branch_name
      (get_pane_base_index env.run + 1))
      (by simp [tmux_select_pane_cmd, tmux_show_option_cmd])
      (by simp [tmux_select_pane_cmd, tmux_has_session_cmd])
    unfold tmux_setup_workspace
    rw [hinst]
    simp [run_command, hhsf, hns, hsw, hsk1, hsk2, hsp]
  · intro hinst h1 h2
    unfold tmux_setup_workspace
    rw [hinst]
    simp [run_command, h1, h2]
  · intro hinst h1 h2
    unfold tmux_setup_workspace
    rw [hinst]
    simp [run_command, h1, h2]
  · intro hinst h1 h2 h3
    unfold tmux_setup_workspace
    rw [hinst]
    simp [run_command, h1, h2, h3]
  · intro hinst h1 h2 h3 h4
    unfold tmux_setup_workspace
    rw [hinst]
    simp [run_command, h1, h2, h3, h4]
  · intro hinst h1 h2 h3 h4 h5
    unfold tmux_setup_workspace
    rw [hinst]
    simp [run_command, h1, h2, h3, h4, h5]
  · intro hinst h1 h2 h3 h4 h5 h6
    unfold tmux_setup_workspace
    rw [hinst]
    simp [run_command, h1, h2, h3, h4, h5, h6]

/-- Witness for the amended C2: setup succeeds with everything passing,
with only the show-option probe failing, and with only the has-session
probe failing (session-absent path). -/
theorem tmux_setup_workspace_outcomes_witness :
    tmux_setup_workspace all_ok_tmux_env default_tmux_settings "/w" "br" "t" "claude"
      = Except.ok true ∧
    tmux_setup_workspace show_option_fails_env default_tmux_settings "/w" "br" "t" "claude"
      = Except.ok true ∧
    tmux_setup_workspace session_absent_env default_tmux_settings "/w" "br" "t" "claude"
      = Except.ok true :=
  ⟨(tmux_setup_workspace_outcomes all_ok_tmux_env default_tmux_settings
      "/w" "br" "t" "claude").2.1 rfl (fun _ _ => rfl),
   (tmux_setup_workspace_outcomes show_option_fails_env default_tmux_settings
      "/w" "br" "t" "claude").2.1 rfl
      (fun cmd hne => by simp [show_option_fails_env, hne]),
   (tmux_setup_workspace_outcomes session_absent_env default_tmux_settings
      "/w" "br" "t" "claude").2.2.1 rfl (by decide)
      (fun cmd hso hhs => by
        simp only [default_tmux_settings] at hhs
        simp [session_absent_env, hhs])⟩

/-- C7: when the upstream push exits non-zero during new-branch worktree
creation, create_worktree still reports success, but the local tracking
fallback command is never spawned: the push runs with check false, so
no CalledProcessError is raised and the except handler guarding the
fallback is unreachable. -/
theorem create_worktree_push_failure_no_fallback :
    (push_fails_run (push_upstream_cmd "feature-branch")).exitCode = 1 ∧
    (create_worktree push_fails_run "/w" "feature-branch" "main" false).1 = Except.ok true ∧
    fallback_tracking_cmd "feature-branch" ∉
      (create_worktree push_fails_run "/w" "feature-branch" "main" false).2 := by
  refine ⟨rfl, rfl, by decide⟩

/-- Helper: cleaned AI output never exceeds 50 characters. -/
theorem cleanAiOutput_length_le (s : String) : (cleanAiOutput s).length ≤ 50 := by
  show (List.take 50 (List.filter isBranchChar
    (List.map Char.toLower ((splitLinesChars (pyStripChars s.data)).getLastD [])))).length ≤ 50
  rw [List.length_take]
  exact Nat.min_le_left _ _

/-- Helper: cleaned AI output only contains branch characters. -/
theorem cleanAiOutput_chars (s : String) :
    ∀ c ∈ (cleanAiOutput s).data, isBranchChar c = true := by
  intro c hc
  have hc2 : c ∈ List.take 50 (List.filter isBranchChar
      (List.map Char.toLower ((splitLinesChars (pyStripChars s.data)).getLastD []))) := hc
  have hc3 := List.take_subset 50 _ hc2
  exact List.of_mem_filter hc3

/-- Helper: the hyphen is a branch character. -/
theorem hyphen_chars : ∀ c ∈ ("-" : String).data, isBranchChar c = true := by decide

/-- Helper: a three-part append preserves the branch character class. -/
theorem chars_append3 (a b d : String)
    (ha : ∀ c ∈ a.data, isBranchChar c = true)
    (hb : ∀ c ∈ b.data, isBranchChar c = true)
    (hd : ∀ c ∈ d.data, isBranchChar c = true) :
    ∀ c ∈ (a ++ b ++ d).data, isBranchChar c = true := by
  intro c hcm
  rw [String.data_append, String.data_append] at hcm
  rcases List.mem_append.mp hcm with h | h
  · rcases List.mem_append.mp h with h2 | h2
    · exact ha c h2
    · exact hb c h2
  · exact hd c h

/-- Helper: the numeric suffixes 1 through 99 print as one or two digit
characters. -/
theorem range_suffix_ok : ∀ i ∈ List.range' 1 99,
    (toString i).length ≤ 2 ∧ ∀ c ∈ (toString i).data, isBranchChar c = true := by decide

/-- Helper: every name handle_branch_conflict can return is the base
name itself or the base name plus a hyphen and one of the three suffix
kinds. -/
theorem conflict_name_shape (env : ConflictEnv) (base : String) :
    (handle_branch_conflict env base).name = base ∨
    (handle_branch_conflict env base).name = base ++ "-" ++ env.hhmmss ∨
    (∃ i ∈ List.range' 1 99, (handle_branch_conflict env base).name = base ++ "-" ++ toString i) ∨
    (handle_branch_conflict env base).name = base ++ "-" ++ env.fullTimestamp := by
  unfold handle_branch_conflict
  dsimp only []
  split
  · exact Or.inl rfl
  · split
    · exact Or.inl rfl
    · split
      · exact Or.inr (Or.inl rfl)
      · split
        · next i heq =>
          exact Or.inr (Or.inr (Or.inl ⟨i, List.mem_of_find?_eq_some heq, rfl⟩))
        · exact Or.inr (Or.inr (Or.inr rfl))

/-- Helper: conflict resolution preserves the branch character class
when the base name and both timestamps are made of branch characters. -/
theorem conflict_chars (env : ConflictEnv) (base : String)
    (hb : ∀ c ∈ base.data, isBranchChar c = true)
    (hh : ∀ c ∈ env.hhmmss.data, isBranchChar c = true)
    (hf : ∀ c ∈ env.fullTimestamp.data, isBranchChar c = true) :
    ∀ c ∈ (handle_branch_conflict env base).name.data, isBranchChar c = true := by
  rcases conflict_name_shape env base with h | h | ⟨i, hmem, h⟩ | h
  · rw [h]
    exact hb
  · rw [h]
    exact chars_append3 base "-" env.hhmmss hb hyphen_chars hh
  · rw [h]
    exact chars_append3 base "-" (toString i) hb hyphen_chars (range_suffix_ok i hmem).2
  · rw [h]
    exact chars_append3 base "-" env.fullTimestamp hb hyphen_chars hf

/-- Helper: with the strftime timestamp lengths, a conflict-resolved
name is at most sixteen characters longer than its base. -/
theorem conflict_length (env : ConflictEnv) (base : String)
    (hh : env.hhmmss.length = 6) (hf : env.fullTimestamp.length = 15) :
    (handle_branch_conflict env base).name.length ≤ base.length + 16 := by
  have hhy : ("-" : String).length = 1 := rfl
  rcases conflict_name_shape env base with h | h | ⟨i, hmem, h⟩ | h
  · rw [h]
    omega
  · rw [h, String.length_append, String.length_append, hhy, hh]
    omega
  · have hlen := (range_suffix_ok i hmem).1
    rw [h, String.length_append, String.length_append, hhy]
    omega
  · rw [h, String.length_append, String.length_append, hhy, hf]

/-- C3 amended: names produced by the accepted AI-cleaning path are
non-empty, at most 50 characters and made of branch characters only;
conflict resolution preserves the character class when its inputs lie in
it, and bounds the growth to sixteen characters over the base name, so a
conflict-resolved name can reach 66 characters and exceed 50; the
original blanket bound fails (see the counterexample) and explicit
branch options are passed through without any validation. -/
theorem resolved_branch_invariants_amended :
    (∀ r task ts : String, min_branch_length ≤ (cleanAiOutput r).length →
      generate_branch_name (some r) task ts = cleanAiOutput r ∧
      generate_branch_name (some r) task ts ≠ "" ∧
      (generate_branch_name (some r) task ts).length ≤ 50 ∧
      (∀ c ∈ (generate_branch_name (some r) task ts).data, isBranchChar c = true)) ∧
    (∀ env : ConflictEnv, ∀ base : String,
      (∀ c ∈ base.data, isBranchChar c = true) →
      (∀ c ∈ env.hhmmss.data, isBranchChar c = true) →
      (∀ c ∈ env.fullTimestamp.data, isBranchChar c = true) →
      ∀ c ∈ (handle_branch_conflict env base).name.data, isBranchChar c = true) ∧
    (∀ env : ConflictEnv, ∀ base : String,
      env.hhmmss.length = 6 → env.fullTimestamp.length = 15 →
      (handle_branch_conflict env base).name.length ≤ base.length + 16) := by
  refine ⟨?_, conflict_chars, conflict_length⟩
  intro r task ts hlen
  have hrne : r ≠ "" := by
    intro he
    subst he
    exact absurd hlen (by decide)
  have heq := gbn_eq_ai r hrne hlen task ts
  rw [heq]
  refine ⟨rfl, ?_, cleanAiOutput_length_le r, cleanAiOutput_chars r⟩
  intro he
  rw [he] at hlen
  exact absurd hlen (by decide)

/-- Counterexample for C3: a 50-character branch name legitimately
produced by the AI path, once it exists and the user declines reuse,
is resolved to a 57-character name, violating the claimed 50-character
bound on every resolved branch. -/
theorem resolved_branch_invariant_counterexample :
    generate_branch_name (some fifty_a) "task" "20250101-120000" = fifty_a ∧
    (handle_branch_conflict long_branch_env fifty_a).name.length = 57 := by
  constructor
  · decide
  · decide

/-- Witness for the amended C3 at concrete inputs. -/
theorem resolved_branch_invariants_amended_witness :
    generate_branch_name (some "fix-auth-bug") "t" "x" = cleanAiOutput "fix-auth-bug" ∧
    (∀ c ∈ (handle_branch_conflict feature_env "feature").name.data, isBranchChar c = true) ∧
    (handle_branch_conflict feature_env "feature").name.length ≤ "feature".length + 16 :=
  ⟨(resolved_branch_invariants_amended.1 "fix-auth-bug" "t" "x" (by decide)).1,
   resolved_branch_invariants_amended.2.1 feature_env "feature" (by decide) (by decide) (by decide),
   resolved_branch_invariants_amended.2.2 feature_env "feature" (by decide) (by decide)⟩

end Lets
